import Mathlib

/-!
# Verification of `pdf_extractor.py`

A shallow embedding of the concurrent PDF → PNG → OCR text pipeline in
`src/pdf_extractor.py`, together with proofs about its per-page task
executor (`process_page_task`), progress scanner
(`get_last_processed_page`), combiner (`combine_text_files`), run
coordinator (`process_pdf`) and setup driver (`setup_and_run`).

Modelling choices:

* File contents are `List Char` (`Chars`), matching Python's
  character-level `read`/`write`.
* The output store (`<name>_processed/` with its `png_images/` and
  `text_files/` subdirectories and the optional `combined_output.txt`)
  is a `Store`: two association lists keyed by the 1-based page index
  (the `%04d` zero-padded file stem parses back to exactly that index),
  two directory-existence flags, and the optional combined artifact.
* The external engines (PyMuPDF rendering and Tesseract OCR) are an
  oracle `Nat → PageOutcome` giving, per 0-based page number, either a
  failure in the render phase (before the PNG is persisted), a failure
  in the OCR phase (after the PNG is persisted), or success with an
  image and a text.  A Python exception is a `PyErr` carrying
  `type(e).__name__` and `str(e)`.
* The `ThreadPoolExecutor` run is modelled as a sequential fold over
  the submitted page indices (`run_pages`): each task writes only to
  its own page's paths, so interleavings are equivalent up to the
  order of the collected results, which no claim below depends on.
-/

set_option autoImplicit false

namespace PdfExtractor

abbrev Chars := List Char

/-- `beginsWith pat s` : `pat` is a prefix of `s` (Python `s.startswith(pat)`). -/
def beginsWith : Chars → Chars → Bool
  | [], _ => true
  | _ :: _, [] => false
  | p :: ps, c :: cs => p == c && beginsWith ps cs

/-- `occursIn needle hay` : Python's `needle in hay` substring test. -/
def occursIn (needle : Chars) : Chars → Bool
  | [] => beginsWith needle []
  | c :: t => beginsWith needle (c :: t) || occursIn needle t

/-- Python `str.strip()`: drop whitespace from both ends. -/
def stripChars (cs : Chars) : Chars :=
  ((cs.dropWhile Char.isWhitespace).reverse.dropWhile Char.isWhitespace).reverse

/-- A Python exception: `type(e).__name__` and `str(e)`. -/
structure PyErr where
  kind : Chars
  detail : Chars
deriving DecidableEq

/-- Behaviour of the external render/OCR engines on one 0-based page:
fail during the render phase (`fitz.open` / `load_page` / `get_pixmap` /
`pix.save`, before the PNG is persisted), fail during OCR after the PNG
was persisted, or succeed producing image bytes and recognized text. -/
inductive PageOutcome where
  | renderFail (e : PyErr)
  | ocrFail (img : Chars) (e : PyErr)
  | ok (img : Chars) (text : Chars)
deriving DecidableEq

/-- The output store: the two artifact collections keyed by 1-based page
index, the directory-existence flags, and the combined artifact. -/
structure Store where
  png_dir_exists : Bool
  txt_dir_exists : Bool
  pngs : List (Nat × Chars)
  txts : List (Nat × Chars)
  combined : Option Chars
deriving DecidableEq

/-- Look a file up in an artifact collection by page index. -/
def lookupFile (l : List (Nat × Chars)) (i : Nat) : Option Chars :=
  (l.find? (fun p => p.1 == i)).map Prod.snd

/-- Write (create or overwrite) the file at page index `i`. -/
def setFile (l : List (Nat × Chars)) (i : Nat) (c : Chars) : List (Nat × Chars) :=
  (i, c) :: l.filter (fun p => p.1 != i)

def Store.pngAt (s : Store) (i : Nat) : Option Chars := lookupFile s.pngs i

def Store.txtAt (s : Store) (i : Nat) : Option Chars := lookupFile s.txts i

def Store.writePng (s : Store) (i : Nat) (c : Chars) : Store :=
  { s with pngs := setFile s.pngs i c }

def Store.writeTxt (s : Store) (i : Nat) (c : Chars) : Store :=
  { s with txts := setFile s.txts i c }

/-- The failure sentinel written at the head of a failed page's text
artifact (line 87 of the source). -/
def SENTINEL : Chars := "OCR FAILED FOR THIS PAGE: ".toList

/-- `error_msg` of line 84: `f"OCR failed: {type(e).__name__}: {str(e)}"`. -/
def errorMessage (e : PyErr) : Chars :=
  "OCR failed: ".toList ++ e.kind ++ ": ".toList ++ e.detail

/-- The `(success, page_index, error_message-or-None)` triple returned by
`process_page_task`. -/
structure TaskResult where
  success : Bool
  page_index : Nat
  error_msg : Option Chars
deriving DecidableEq

/-- `process_page_task` (lines 45-92): skip if both artifacts for the
1-based `page_num + 1` exist; otherwise run the engines, persisting the
PNG and the stripped OCR text on success, and on any exception write the
sentinel text artifact and return failure.  The final `Nat` counts the
engine phases actually entered (0 when skipped), used to express "no
engine call" claims. -/
def process_page_task (oracle : Nat → PageOutcome) (s : Store) (page_num : Nat) :
    Store × TaskResult × Nat :=
  let page_index := page_num + 1
  if (s.pngAt page_index).isSome && (s.txtAt page_index).isSome then
    (s, ⟨true, page_index, none⟩, 0)
  else
    match oracle page_num with
    | .renderFail e =>
        (s.writeTxt page_index (SENTINEL ++ errorMessage e),
         ⟨false, page_index, some (errorMessage e)⟩, 1)
    | .ocrFail img e =>
        ((s.writePng page_index img).writeTxt page_index (SENTINEL ++ errorMessage e),
         ⟨false, page_index, some (errorMessage e)⟩, 2)
    | .ok img text =>
        ((s.writePng page_index img).writeTxt page_index (stripChars text),
         ⟨true, page_index, none⟩, 2)

/-- `get_last_processed_page` (lines 95-121): 0 if either subdirectory is
missing; otherwise the maximum page index whose PNG entry has a matching
text artifact, and 0 when no index qualifies. -/
def get_last_processed_page (s : Store) : Nat :=
  if !s.png_dir_exists || !s.txt_dir_exists then 0
  else
    ((s.pngs.map Prod.fst).filter (fun i => (s.txtAt i).isSome)).foldl max 0

/-- The delimiter line 155 writes before each merged page:
`\n\n==================== PAGE <n> ====================\n\n`. -/
def pageHeader (i : Nat) : Chars :=
  "\n\n==================== PAGE ".toList ++ (toString i).toList
    ++ " ====================\n\n".toList

/-- The filter of lines 139-144: the text artifact for `i` exists and its
first 50 characters do not contain `"OCR FAILED"`. -/
def qualifies (s : Store) (i : Nat) : Bool :=
  match s.txtAt i with
  | some content => !occursIn "OCR FAILED".toList (content.take 50)
  | none => false

/-- The `sorted_files` list of lines 132-146: the qualifying page indices
of `range(start_page, end_page + 1)`, in ascending order. -/
def mergedPages (s : Store) (start_page end_page : Nat) : List Nat :=
  (List.range' start_page (end_page + 1 - start_page)).filter (qualifies s)

/-- `combine_text_files` (lines 123-161): if no page in range qualifies,
report 0 merged and leave the store untouched; otherwise write the
combined artifact (each qualifying page's content under its header, in
ascending index order) and report how many pages were merged. -/
def combine_text_files (s : Store) (start_page end_page : Nat) : Store × Nat :=
  let sorted_files := mergedPages s start_page end_page
  if sorted_files.isEmpty then (s, 0)
  else
    let merged := (sorted_files.map (fun i => pageHeader i ++ (s.txtAt i).getD [])).flatten
    ({ s with combined := some merged }, sorted_files.length)

/-- `run_pages` : the `ThreadPoolExecutor` block of lines 220-250 modelled
as a sequential fold over the submitted 0-based page numbers (tasks write
to disjoint paths).  Returns the final store, the collected
`TaskResult`s, and the total number of engine phases entered. -/
def run_pages (oracle : Nat → PageOutcome) (s : Store) : List Nat → Store × List TaskResult × Nat
  | [] => (s, [], 0)
  | n :: ns =>
    let r1 := process_page_task oracle s n
    let rest := run_pages oracle r1.1 ns
    (rest.1, r1.2.1 :: rest.2.1, r1.2.2 + rest.2.2)

/-- The run tally of lines 229-249: `success_count`, `failure_count`, and
the `failure_messages` list of `(page_index, error_msg)` entries. -/
structure RunResult where
  success_count : Nat
  failure_count : Nat
  failure_messages : List (Nat × Chars)
deriving DecidableEq

/-- One step of the result-collection loop (lines 233-246): a success
increments `success_count` only when its `error_msg` is `None`; a failure
increments `failure_count` and appends its diagnostic. -/
def aggStep (acc : RunResult) (r : TaskResult) : RunResult :=
  if r.success then
    if r.error_msg = none then
      { acc with success_count := acc.success_count + 1 }
    else acc
  else
    { acc with failure_count := acc.failure_count + 1,
               failure_messages := acc.failure_messages ++ [(r.page_index, r.error_msg.getD [])] }

def aggregate (rs : List TaskResult) : RunResult :=
  rs.foldl aggStep ⟨0, 0, []⟩

/-- The 0-based page numbers submitted by line 215:
`range(start_page - 1, end_page)`. -/
def pagesToProcess (start_page end_page : Nat) : List Nat :=
  List.range' (start_page - 1) (end_page + 1 - start_page)

/-- `process_pdf` (lines 164-270): create the two subdirectories, then —
if the Tesseract check of lines 198-205 fails — return without any
per-page processing (`none` in the second component); otherwise run every
page of the range, tally the results, and run `combine_text_files` only
when `success_count > 0`. -/
def process_pdf (oracle : Nat → PageOutcome) (tesseract_found : Bool) (s : Store)
    (start_page end_page : Nat) : Store × Option (RunResult × List TaskResult × Nat) :=
  let s0 : Store := { s with png_dir_exists := true, txt_dir_exists := true }
  if !tesseract_found then (s0, none)
  else
    let run := run_pages oracle s0 (pagesToProcess start_page end_page)
    let agg := aggregate run.2.1
    let s2 := if agg.success_count > 0 then (combine_text_files run.1 start_page end_page).1
              else run.1
    (s2, some (agg, run.2.1, run.2.2))

/-- The decisive (valid) user command of the interactive loop of
lines 355-411: quit, all pages, resume, or an explicit range. -/
inductive UserAction where
  | quit
  | allPages
  | resume
  | newRange (a b : Nat)
deriving DecidableEq

/-- The environment `setup_and_run` observes: whether the source file
exists, the page count of the document (`none` = unreadable), whether the
Tesseract executable resolves, and the user's command. -/
structure SetupEnv where
  pdf_exists : Bool
  total_pages : Option Nat
  tesseract_found : Bool
  action : UserAction
deriving DecidableEq

/-- `setup_and_run` (lines 273-415) reduced to its exit behaviour:
`some (exit_code, processing_began)`, where `processing_began` records
whether per-page processing started (tasks were submitted), and `none`
models an invalid command on which the interactive loop re-prompts
(resume with no prior progress, or an out-of-bounds range).  A normal
fall-through of `main` exits with code 0. -/
def setup_and_run (env : SetupEnv) (s : Store) : Option (Nat × Bool) :=
  if !env.pdf_exists then some (1, false)
  else
    match env.total_pages with
    | none => some (1, false)
    | some total_pages =>
      let last_page := get_last_processed_page s
      match env.action with
      | .quit => some (0, false)
      | .resume =>
          if last_page = 0 then none
          else if last_page + 1 > total_pages then some (0, false)
          else some (0, env.tesseract_found)
      | .allPages => some (0, env.tesseract_found)
      | .newRange a b =>
          if 1 ≤ a ∧ a ≤ b ∧ b ≤ total_pages then some (0, env.tesseract_found)
          else none

/-- A page index is complete in the store: its PNG entry exists and the
matching text artifact exists (the test of lines 110-116). -/
def completeB (s : Store) (i : Nat) : Bool :=
  (s.pngs.map Prod.fst).contains i && (s.txtAt i).isSome

/-- Spec-side predicate (claim C1's words, for comparison with the code's
`qualifies`): the text artifact for `i` exists and does not *begin with*
the failure sentinel. -/
def specQualifies (s : Store) (i : Nat) : Bool :=
  match s.txtAt i with
  | some c => !beginsWith SENTINEL c
  | none => false

/-! Concrete sample data used by the witness and counterexample
theorems below. -/

def emptyStore : Store := ⟨false, false, [], [], none⟩

/-- A store in which pages 1 and 2 are fully processed. -/
def sampleComplete : Store :=
  ⟨true, true, [(1, "I1".toList), (2, "I2".toList)],
   [(1, "text one".toList), (2, "text two".toList)], none⟩

def sampleErr : PyErr := ⟨"ValueError".toList, "bad page".toList⟩

def okOracle : Nat → PageOutcome := fun _ => .ok "IMG".toList "text".toList

def renderFailOracle : Nat → PageOutcome := fun _ => .renderFail ⟨"ValueError".toList, "bad page".toList⟩

def ocrFailOracle : Nat → PageOutcome :=
  fun _ => .ocrFail "IMG".toList ⟨"ValueError".toList, "bad page".toList⟩

/-- A store whose complete pages are {1, 2, 5} while 3 and 4 lack their
text artifacts (the spec's resume-gap example). -/
def gapStore : Store :=
  ⟨true, true, [(1, []), (2, []), (3, []), (4, []), (5, [])],
   [(1, "a".toList), (2, "b".toList), (5, "e".toList)], none⟩

/-- A store whose only text artifact in range is sentinel-marked. -/
def sentinelStore : Store :=
  ⟨true, true, [], [(1, ("OCR FAILED FOR THIS PAGE: ".toList ++ "OCR failed: E: x".toList))],
   some "old combined".toList⟩

/-- A store whose page-1 text artifact does *not* begin with the failure
sentinel but does contain `"OCR FAILED"` among its first 50 characters. -/
def cexStore : Store :=
  ⟨true, true, [(1, "IMG".toList)], [(1, "x OCR FAILED x".toList)], none⟩

/-! ## Helper lemmas: strings -/

theorem beginsWith_iff (p : Chars) : ∀ s : Chars, beginsWith p s = true ↔ ∃ r, s = p ++ r := by
  induction p with
  | nil =>
      intro s
      simp [beginsWith]
  | cons x xs ih =>
      intro s
      cases s with
      | nil => simp [beginsWith]
      | cons y ys =>
          simp only [beginsWith, Bool.and_eq_true, beq_iff_eq, ih, List.cons_append,
            List.cons.injEq]
          constructor
          · rintro ⟨rfl, r, rfl⟩
            exact ⟨r, rfl, rfl⟩
          · rintro ⟨r, rfl, rfl⟩
            exact ⟨rfl, r, rfl⟩

theorem beginsWith_trans {p q c : Chars} (h1 : beginsWith p q = true)
    (h2 : beginsWith q c = true) : beginsWith p c = true := by
  rw [beginsWith_iff] at h1 h2 ⊢
  obtain ⟨r1, rfl⟩ := h1
  obtain ⟨r2, rfl⟩ := h2
  exact ⟨r1 ++ r2, List.append_assoc _ _ _⟩

theorem beginsWith_take {p s : Chars} {n : Nat} (hn : p.length ≤ n)
    (h : beginsWith p s = true) : beginsWith p (s.take n) = true := by
  rw [beginsWith_iff] at h ⊢
  obtain ⟨r, rfl⟩ := h
  refine ⟨r.take (n - p.length), ?_⟩
  rw [List.take_append_eq_append_take, List.take_of_length_le hn]

theorem occursIn_of_beginsWith {needle hay : Chars} (h : beginsWith needle hay = true) :
    occursIn needle hay = true := by
  cases hay with
  | nil => exact h
  | cons c t => simp [occursIn, h]

/-- A sentinel-marked text artifact never passes the combiner's filter of
lines 139-144. -/
theorem sentinel_not_qualifies {s : Store} {i : Nat} {c : Chars}
    (htxt : s.txtAt i = some c) (hsen : beginsWith SENTINEL c = true) :
    qualifies s i = false := by
  have h10 : beginsWith "OCR FAILED".toList SENTINEL = true := by decide
  have hc : beginsWith "OCR FAILED".toList c = true := beginsWith_trans h10 hsen
  have hlen : ("OCR FAILED".toList).length ≤ 50 := by decide
  have htake := beginsWith_take hlen hc
  have hocc := occursIn_of_beginsWith htake
  unfold qualifies
  rw [htxt]
  change (!occursIn "OCR FAILED".toList (List.take 50 c)) = false
  rw [hocc]
  rfl

/-! ## Helper lemmas: the store -/

theorem find?_filter_ne (i j : Nat) (h : j ≠ i) : ∀ l : List (Nat × Chars),
    (l.filter (fun p => p.1 != i)).find? (fun p => p.1 == j) = l.find? (fun p => p.1 == j) := by
  intro l
  induction l with
  | nil => rfl
  | cons a t ih =>
      by_cases hai : a.1 = i
      · have h1 : (a.1 != i) = false := by simp [hai]
        have h2 : (a.1 == j) = false := by simp [hai]; omega
        simp [List.filter_cons, h1, List.find?_cons, h2, ih]
      · have h1 : (a.1 != i) = true := by simp [hai]
        by_cases haj : a.1 = j
        · have h2 : (a.1 == j) = true := by simp [haj]
          simp [List.filter_cons, h1, List.find?_cons, h2]
        · have h2 : (a.1 == j) = false := by simp [haj]
          simp [List.filter_cons, h1, List.find?_cons, h2, ih]

theorem lookupFile_setFile (l : List (Nat × Chars)) (i j : Nat) (c : Chars) :
    lookupFile (setFile l i c) j = if j = i then some c else lookupFile l j := by
  by_cases hji : j = i
  · subst hji
    simp [lookupFile, setFile, List.find?_cons]
  · have h2 : (i == j) = false := by simp; omega
    simp [lookupFile, setFile, List.find?_cons, h2, find?_filter_ne i j hji, hji]

theorem txtAt_writeTxt (s : Store) (i j : Nat) (c : Chars) :
    (s.writeTxt i c).txtAt j = if j = i then some c else s.txtAt j :=
  lookupFile_setFile s.txts i j c

theorem pngAt_writeTxt (s : Store) (i j : Nat) (c : Chars) :
    (s.writeTxt i c).pngAt j = s.pngAt j := rfl

theorem pngAt_writePng (s : Store) (i j : Nat) (c : Chars) :
    (s.writePng i c).pngAt j = if j = i then some c else s.pngAt j :=
  lookupFile_setFile s.pngs i j c

theorem txtAt_writePng (s : Store) (i j : Nat) (c : Chars) :
    (s.writePng i c).txtAt j = s.txtAt j := rfl

/-! ## Helper lemmas: the page task -/

theorem task_skip {oracle : Nat → PageOutcome} {s : Store} {n : Nat}
    (h : ((s.pngAt (n + 1)).isSome && (s.txtAt (n + 1)).isSome) = true) :
    process_page_task oracle s n = (s, ⟨true, n + 1, none⟩, 0) := by
  simp [process_page_task, h]

theorem task_not_skip {oracle : Nat → PageOutcome} {s : Store} {n : Nat}
    (h : ((s.pngAt (n + 1)).isSome && (s.txtAt (n + 1)).isSome) = false) :
    process_page_task oracle s n =
      match oracle n with
      | .renderFail e =>
          (s.writeTxt (n + 1) (SENTINEL ++ errorMessage e),
           ⟨false, n + 1, some (errorMessage e)⟩, 1)
      | .ocrFail img e =>
          ((s.writePng (n + 1) img).writeTxt (n + 1) (SENTINEL ++ errorMessage e),
           ⟨false, n + 1, some (errorMessage e)⟩, 2)
      | .ok img text =>
          ((s.writePng (n + 1) img).writeTxt (n + 1) (stripChars text),
           ⟨true, n + 1, none⟩, 2) := by
  simp [process_page_task, h]

theorem task_page_index (oracle : Nat → PageOutcome) (s : Store) (n : Nat) :
    (process_page_task oracle s n).2.1.page_index = n + 1 := by
  cases hc : ((s.pngAt (n + 1)).isSome && (s.txtAt (n + 1)).isSome) with
  | true => rw [task_skip hc]
  | false =>
      rw [task_not_skip hc]
      cases oracle n <;> rfl

theorem task_success_msg (oracle : Nat → PageOutcome) (s : Store) (n : Nat)
    (h : (process_page_task oracle s n).2.1.success = true) :
    (process_page_task oracle s n).2.1.error_msg = none := by
  cases hc : ((s.pngAt (n + 1)).isSome && (s.txtAt (n + 1)).isSome) with
  | true => rw [task_skip hc]
  | false =>
      rw [task_not_skip hc] at h ⊢
      cases ho : oracle n <;> simp_all

theorem task_txt_some (oracle : Nat → PageOutcome) (s : Store) (n : Nat) :
    (((process_page_task oracle s n).1).txtAt (n + 1)).isSome = true := by
  cases hc : ((s.pngAt (n + 1)).isSome && (s.txtAt (n + 1)).isSome) with
  | true =>
      rw [task_skip hc]
      exact (Bool.and_eq_true _ _).mp hc |>.2
  | false =>
      rw [task_not_skip hc]
      cases oracle n <;> simp [txtAt_writeTxt]

theorem task_frame (oracle : Nat → PageOutcome) (s : Store) (n j : Nat) (hj : j ≠ n + 1) :
    ((process_page_task oracle s n).1).txtAt j = s.txtAt j ∧
    ((process_page_task oracle s n).1).pngAt j = s.pngAt j := by
  cases hc : ((s.pngAt (n + 1)).isSome && (s.txtAt (n + 1)).isSome) with
  | true => rw [task_skip hc]; exact ⟨rfl, rfl⟩
  | false =>
      rw [task_not_skip hc]
      cases oracle n <;>
        simp [txtAt_writeTxt, pngAt_writeTxt, txtAt_writePng, pngAt_writePng, hj]

theorem task_flags (oracle : Nat → PageOutcome) (s : Store) (n : Nat) :
    ((process_page_task oracle s n).1).png_dir_exists = s.png_dir_exists ∧
    ((process_page_task oracle s n).1).txt_dir_exists = s.txt_dir_exists ∧
    ((process_page_task oracle s n).1).combined = s.combined := by
  cases hc : ((s.pngAt (n + 1)).isSome && (s.txtAt (n + 1)).isSome) with
  | true => rw [task_skip hc]; exact ⟨rfl, rfl, rfl⟩
  | false =>
      rw [task_not_skip hc]
      cases oracle n <;> exact ⟨rfl, rfl, rfl⟩

theorem task_png_mono (oracle : Nat → PageOutcome) (s : Store) (n j : Nat)
    (h : (s.pngAt j).isSome = true) :
    (((process_page_task oracle s n).1).pngAt j).isSome = true := by
  cases hc : ((s.pngAt (n + 1)).isSome && (s.txtAt (n + 1)).isSome) with
  | true => rw [task_skip hc]; exact h
  | false =>
      rw [task_not_skip hc]
      by_cases hj : j = n + 1
      · subst hj
        cases oracle n <;> simp [pngAt_writeTxt, pngAt_writePng, h]
      · cases oracle n <;> simp [pngAt_writeTxt, pngAt_writePng, hj, h]

theorem task_txt_mono (oracle : Nat → PageOutcome) (s : Store) (n j : Nat)
    (h : (s.txtAt j).isSome = true) :
    (((process_page_task oracle s n).1).txtAt j).isSome = true := by
  cases hc : ((s.pngAt (n + 1)).isSome && (s.txtAt (n + 1)).isSome) with
  | true => rw [task_skip hc]; exact h
  | false =>
      rw [task_not_skip hc]
      by_cases hj : j = n + 1
      · subst hj
        cases oracle n <;> simp [txtAt_writeTxt, txtAt_writePng, h]
      · cases oracle n <;> simp [txtAt_writeTxt, txtAt_writePng, hj, h]

theorem task_png_none (oracle : Nat → PageOutcome) (s : Store) (n : Nat)
    (h : ((process_page_task oracle s n).1).pngAt (n + 1) = none) :
    (∃ e, oracle n = .renderFail e) ∧ s.pngAt (n + 1) = none := by
  cases hc : ((s.pngAt (n + 1)).isSome && (s.txtAt (n + 1)).isSome) with
  | true =>
      rw [task_skip hc] at h
      have := (Bool.and_eq_true _ _).mp hc |>.1
      rw [h] at this
      exact absurd this (by simp)
  | false =>
      rw [task_not_skip hc] at h
      cases ho : oracle n with
      | renderFail e =>
          rw [ho] at h
          exact ⟨⟨e, rfl⟩, h⟩
      | ocrFail img e =>
          rw [ho] at h
          simp [pngAt_writeTxt, pngAt_writePng] at h
      | ok img text =>
          rw [ho] at h
          simp [pngAt_writeTxt, pngAt_writePng] at h

theorem task_calls_pos (oracle : Nat → PageOutcome) (s : Store) (n : Nat)
    (h : ((s.pngAt (n + 1)).isSome && (s.txtAt (n + 1)).isSome) = false) :
    (process_page_task oracle s n).2.2 ≠ 0 := by
  rw [task_not_skip h]
  cases oracle n <;> simp

/-! ## Helper lemmas: the run -/

theorem run_pages_cons (oracle : Nat → PageOutcome) (s : Store) (n : Nat) (ns : List Nat) :
    run_pages oracle s (n :: ns) =
      ((run_pages oracle (process_page_task oracle s n).1 ns).1,
       (process_page_task oracle s n).2.1
         :: (run_pages oracle (process_page_task oracle s n).1 ns).2.1,
       (process_page_task oracle s n).2.2
         + (run_pages oracle (process_page_task oracle s n).1 ns).2.2) := rfl

theorem run_txt_mono (oracle : Nat → PageOutcome) (ns : List Nat) :
    ∀ (s : Store) (j : Nat), (s.txtAt j).isSome = true →
      (((run_pages oracle s ns).1).txtAt j).isSome = true := by
  induction ns with
  | nil => intro s j h; exact h
  | cons n t ih =>
      intro s j h
      rw [run_pages_cons]
      exact ih _ j (task_txt_mono oracle s n j h)

theorem run_png_mono (oracle : Nat → PageOutcome) (ns : List Nat) :
    ∀ (s : Store) (j : Nat), (s.pngAt j).isSome = true →
      (((run_pages oracle s ns).1).pngAt j).isSome = true := by
  induction ns with
  | nil => intro s j h; exact h
  | cons n t ih =>
      intro s j h
      rw [run_pages_cons]
      exact ih _ j (task_png_mono oracle s n j h)

/-- After a run, every submitted page has a text artifact. -/
theorem run_txt_some (oracle : Nat → PageOutcome) (ns : List Nat) :
    ∀ (s : Store) (n : Nat), n ∈ ns →
      (((run_pages oracle s ns).1).txtAt (n + 1)).isSome = true := by
  induction ns with
  | nil => intro s n h; exact absurd h (List.not_mem_nil n)
  | cons m t ih =>
      intro s n h
      rw [run_pages_cons]
      rcases List.mem_cons.mp h with rfl | hmem
      · exact run_txt_mono oracle t _ (n + 1) (task_txt_some oracle s n)
      · exact ih _ n hmem

/-- After a run, a submitted page can lack its render artifact only if its
render phase failed in this run and the artifact did not exist before. -/
theorem run_png_none (oracle : Nat → PageOutcome) (ns : List Nat) :
    ∀ (s : Store) (n : Nat), n ∈ ns →
      ((run_pages oracle s ns).1).pngAt (n + 1) = none →
      (∃ e, oracle n = .renderFail e) ∧ s.pngAt (n + 1) = none := by
  induction ns with
  | nil => intro s n h; exact absurd h (List.not_mem_nil n)
  | cons m t ih =>
      intro s n h hnone
      rw [run_pages_cons] at hnone
      rcases List.mem_cons.mp h with rfl | hmem
      · have h1 : ((process_page_task oracle s n).1).pngAt (n + 1) = none := by
          cases h2 : ((process_page_task oracle s n).1).pngAt (n + 1) with
          | none => rfl
          | some c =>
              have := run_png_mono oracle t _ (n + 1) (by rw [h2]; rfl)
              rw [hnone] at this
              exact absurd this (by simp)
        exact task_png_none oracle s n h1
      · have h3 := ih _ n hmem hnone
        refine ⟨h3.1, ?_⟩
        cases h4 : s.pngAt (n + 1) with
        | none => rfl
        | some c =>
            have := task_png_mono oracle s m (n + 1) (by rw [h4]; rfl)
            rw [h3.2] at this
            exact absurd this (by simp)

/-- If every submitted page is already complete, the whole run is a no-op:
unchanged store, zero engine calls, and one immediate success per page. -/
theorem run_skip_all (oracle : Nat → PageOutcome) (ns : List Nat) (s : Store)
    (h : ∀ n ∈ ns, ((s.pngAt (n + 1)).isSome && (s.txtAt (n + 1)).isSome) = true) :
    run_pages oracle s ns =
      (s, ns.map (fun n => (⟨true, n + 1, none⟩ : TaskResult)), 0) := by
  induction ns with
  | nil => rfl
  | cons n t ih =>
      rw [run_pages_cons, task_skip (h n (List.mem_cons_self n t))]
      rw [ih (fun m hm => h m (List.mem_cons_of_mem n hm))]
      rfl

theorem run_results_map (oracle : Nat → PageOutcome) (ns : List Nat) :
    ∀ s : Store, ((run_pages oracle s ns).2.1).map TaskResult.page_index
      = ns.map (fun n => n + 1) := by
  induction ns with
  | nil => intro s; rfl
  | cons n t ih =>
      intro s
      rw [run_pages_cons]
      simp only [List.map_cons, task_page_index, ih]

theorem run_success_msg (oracle : Nat → PageOutcome) (ns : List Nat) :
    ∀ (s : Store), ∀ r ∈ (run_pages oracle s ns).2.1,
      r.success = true → r.error_msg = none := by
  induction ns with
  | nil => intro s r h; exact absurd h (List.not_mem_nil r)
  | cons n t ih =>
      intro s r h hs
      rw [run_pages_cons] at h
      rcases List.mem_cons.mp h with rfl | hmem
      · exact task_success_msg oracle s n hs
      · exact ih _ r hmem hs

/-! ## Helper lemmas: aggregation, maxima, ranges -/

theorem aggStep_counts (acc : RunResult) (r : TaskResult)
    (h : r.success = true → r.error_msg = none) :
    (aggStep acc r).success_count + (aggStep acc r).failure_count
      = acc.success_count + acc.failure_count + 1 := by
  unfold aggStep
  cases hs : r.success with
  | true => simp [h hs]; omega
  | false => simp; omega

theorem foldl_aggStep_counts (rs : List TaskResult) :
    ∀ acc : RunResult, (∀ r ∈ rs, r.success = true → r.error_msg = none) →
      (rs.foldl aggStep acc).success_count + (rs.foldl aggStep acc).failure_count
        = acc.success_count + acc.failure_count + rs.length := by
  induction rs with
  | nil => intro acc _; simp
  | cons r t ih =>
      intro acc h
      rw [List.foldl_cons,
        ih (aggStep acc r) (fun x hx hs => h x (List.mem_cons_of_mem r hx) hs),
        aggStep_counts acc r (h r (List.mem_cons_self r t)), List.length_cons]
      omega

theorem foldl_aggStep_all_success (ns : List Nat) :
    ∀ acc : RunResult,
      ((ns.map (fun n => (⟨true, n + 1, none⟩ : TaskResult))).foldl aggStep acc).success_count
        = acc.success_count + ns.length := by
  induction ns with
  | nil => intro acc; simp
  | cons n t ih =>
      intro acc
      rw [List.map_cons, List.foldl_cons, ih]
      have hstep : aggStep acc ⟨true, n + 1, none⟩
          = { acc with success_count := acc.success_count + 1 } := by
        simp [aggStep]
      rw [hstep, List.length_cons]
      simp
      omega

theorem foldl_max_le (l : List Nat) :
    ∀ a : Nat, a ≤ l.foldl max a ∧ ∀ x ∈ l, x ≤ l.foldl max a := by
  induction l with
  | nil => intro a; exact ⟨Nat.le_refl a, by simp⟩
  | cons y t ih =>
      intro a
      rw [List.foldl_cons]
      obtain ⟨h1, h2⟩ := ih (max a y)
      refine ⟨Nat.le_trans (Nat.le_max_left a y) h1, ?_⟩
      intro x hx
      rcases List.mem_cons.mp hx with rfl | hmem
      · exact Nat.le_trans (Nat.le_max_right a x) h1
      · exact h2 x hmem

theorem foldl_max_mem (l : List Nat) :
    ∀ a : Nat, l.foldl max a = a ∨ l.foldl max a ∈ l := by
  induction l with
  | nil => intro a; exact Or.inl rfl
  | cons y t ih =>
      intro a
      rw [List.foldl_cons]
      rcases ih (max a y) with h | h
      · rw [h]
        rcases Nat.le_total a y with hay | hya
        · rw [Nat.max_eq_right hay]
          exact Or.inr (List.mem_cons_self y t)
        · rw [Nat.max_eq_left hya]
          exact Or.inl rfl
      · exact Or.inr (List.mem_cons_of_mem y h)

theorem map_succ_range' (n : Nat) :
    ∀ s : Nat, (List.range' s n).map (fun m => m + 1) = List.range' (s + 1) n := by
  induction n with
  | zero => intro s; rfl
  | succ k ih =>
      intro s
      rw [List.range'_succ s k 1, List.range'_succ (s + 1) k 1, List.map_cons, ih (s + 1)]

/-- A `Store` analogue of the C10 witness oracle: page 0 fails in the
render phase, every other page fails in the OCR phase. -/
def mixedOracle : Nat → PageOutcome :=
  fun k => if k = 0 then .renderFail sampleErr else .ocrFail "IMG".toList sampleErr

/-! ## Claim theorems -/

/-- C1 counterexample: in `cexStore`, page 1's text artifact exists
and does not begin with the failure sentinel, yet `combine_text_files`
over the range `[1, 1]` merges 0 pages instead of the 1 page the claim
predicts: line 143 excludes any page whose first 50 characters merely
*contain* `"OCR FAILED"`, not only pages that begin with the sentinel. -/
theorem combine_count_cex :
    specQualifies cexStore 1 = true ∧
    ((List.range' 1 (1 + 1 - 1)).filter (fun i => specQualifies cexStore i)).length = 1 ∧
    (combine_text_files cexStore 1 1).2 = 0 := by
  decide

/-- C1 (amended): Combine correctness: for every range and every
output-store state, the number of pages merged by `combine_text_files`
equals the number of indices in the range whose text artifact exists and
whose first 50 characters do not contain `"OCR FAILED"`; in particular no
sentinel-marked page (text artifact beginning with the failure sentinel)
is ever among the merged pages, so its content never appears in the
merged output. -/
theorem combine_count_correct (s : Store) (a b : Nat) :
    (combine_text_files s a b).2 = (mergedPages s a b).length ∧
    mergedPages s a b
      = (List.range' a (b + 1 - a)).filter (fun i => qualifies s i) ∧
    ∀ i c, s.txtAt i = some c → beginsWith SENTINEL c = true →
      i ∉ mergedPages s a b := by
  refine ⟨?_, ?_, ?_⟩
  · cases hM : mergedPages s a b with
    | nil => simp [combine_text_files, hM]
    | cons x xs => simp [combine_text_files, hM]
  · rfl
  · intro i c htxt hsen hmem
    have hq : qualifies s i = false := sentinel_not_qualifies htxt hsen
    have := (List.mem_filter.mp hmem).2
    rw [hq] at this
    exact absurd this (by simp)

theorem combine_count_correct_witness :
    (1 : Nat) ∉ mergedPages sentinelStore 1 1 :=
  (combine_count_correct sentinelStore 1 1).2.2 1
    ("OCR FAILED FOR THIS PAGE: ".toList ++ "OCR failed: E: x".toList)
    (by decide) (by decide)

/-- C2: Idempotent skip: for every page whose render and text
artifacts both already exist, `process_page_task` returns success
immediately with zero engine calls and an unchanged store; consequently a
run over a fully processed set of pages makes zero engine calls, leaves
the store byte-identical, and reports every page as an immediate
success. -/
theorem run_fully_processed_skips (oracle : Nat → PageOutcome) (s : Store) (ns : List Nat)
    (h : ∀ n ∈ ns, ((s.pngAt (n + 1)).isSome && (s.txtAt (n + 1)).isSome) = true) :
    (∀ n ∈ ns, process_page_task oracle s n = (s, ⟨true, n + 1, none⟩, 0)) ∧
    (run_pages oracle s ns).1 = s ∧
    (run_pages oracle s ns).2.2 = 0 ∧
    ∀ r ∈ (run_pages oracle s ns).2.1, r.success = true ∧ r.error_msg = none := by
  rw [run_skip_all oracle ns s h]
  refine ⟨fun n hn => task_skip (h n hn), rfl, rfl, ?_⟩
  intro r hr
  obtain ⟨n, _, rfl⟩ := List.mem_map.mp hr
  exact ⟨rfl, rfl⟩

theorem run_fully_processed_skips_witness :
    (∀ n ∈ [0, 1], process_page_task okOracle sampleComplete n
        = (sampleComplete, ⟨true, n + 1, none⟩, 0)) ∧
    (run_pages okOracle sampleComplete [0, 1]).1 = sampleComplete ∧
    (run_pages okOracle sampleComplete [0, 1]).2.2 = 0 ∧
    ∀ r ∈ (run_pages okOracle sampleComplete [0, 1]).2.1,
      r.success = true ∧ r.error_msg = none :=
  run_fully_processed_skips okOracle sampleComplete [0, 1] (by decide)

/-- C3: Per-page failure handling: when the page is not skipped and
the rendering or recognition engine raises `e`, `process_page_task`
returns (rather than propagates) a failure result whose message is
`"OCR failed: "` followed by `{errorKind}: {errorDetail}`, and writes a
text artifact that is exactly the sentinel
`"OCR FAILED FOR THIS PAGE: "` followed by that same message. -/
theorem task_failure_isolated (oracle : Nat → PageOutcome) (s : Store) (n : Nat) (e : PyErr)
    (hns : ((s.pngAt (n + 1)).isSome && (s.txtAt (n + 1)).isSome) = false)
    (hf : oracle n = .renderFail e ∨ ∃ img, oracle n = .ocrFail img e) :
    (process_page_task oracle s n).2.1
      = ⟨false, n + 1, some (errorMessage e)⟩ ∧
    ((process_page_task oracle s n).1).txtAt (n + 1)
      = some (SENTINEL ++ errorMessage e) ∧
    errorMessage e = "OCR failed: ".toList ++ (e.kind ++ (": ".toList ++ e.detail)) := by
  rw [task_not_skip hns]
  rcases hf with ho | ⟨img, ho⟩ <;> rw [ho] <;>
    exact ⟨rfl, by rw [txtAt_writeTxt]; simp, by simp [errorMessage]⟩

theorem task_failure_isolated_witness :
    (process_page_task renderFailOracle emptyStore 0).2.1
      = ⟨false, 1, some (errorMessage sampleErr)⟩ ∧
    ((process_page_task renderFailOracle emptyStore 0).1).txtAt 1
      = some (SENTINEL ++ errorMessage sampleErr) ∧
    errorMessage sampleErr
      = "OCR failed: ".toList ++ (sampleErr.kind ++ (": ".toList ++ sampleErr.detail)) :=
  task_failure_isolated renderFailOracle emptyStore 0 sampleErr (by decide)
    (Or.inl (by decide))

/-- Every outcome of `setup_and_run` is one of: exit 1 before processing,
exit 0 before processing, exit 0 with processing iff the engine was
found, or a re-prompt of the interactive loop. -/
theorem setup_cases (env : SetupEnv) (s : Store) :
    setup_and_run env s = some (1, false) ∨
    setup_and_run env s = some (0, false) ∨
    setup_and_run env s = some (0, env.tesseract_found) ∨
    setup_and_run env s = none := by
  obtain ⟨pe, tp, tf, ac⟩ := env
  unfold setup_and_run
  cases pe
  · left; simp
  · cases tp with
    | none => left; simp
    | some total =>
        cases ac with
        | quit => right; left; simp
        | allPages => right; right; left; simp
        | resume =>
            simp only [Bool.not_true, Bool.false_eq_true, if_false]
            split_ifs
            · right; right; right; rfl
            · right; left; rfl
            · right; right; left; rfl
        | newRange a b =>
            simp only [Bool.not_true, Bool.false_eq_true, if_false]
            split_ifs
            · right; right; left; rfl
            · right; right; right; rfl

/-- C4 counterexample: source file present and readable, but the OCR
engine executable is missing: the process exits with code 0 — not the
non-zero code the claim requires — because line 205 merely `return`s from
`process_pdf` and `main` then falls through.  (Per-page processing indeed
never begins.) -/
theorem setup_exit_cex :
    setup_and_run ⟨true, some 1, false, UserAction.allPages⟩ emptyStore
      = some (0, false) ∧ (0 : Nat) ≠ 1 := by
  constructor
  · decide
  · decide

/-- C4 (amended): Exit codes: the process exits 0 on normal completion
or user-requested quit, and 1 when the source file is missing or the
document is unreadable; in each of the three setup-error cases (missing
file, unreadable document, OCR engine not found) per-page processing never
begins — but in the engine-not-found case the process exits 0, not
non-zero.  Every exit code is 0 or 1, and processing begins only on the
exit-0 path with the engine present. -/
theorem setup_exit_codes (env : SetupEnv) (s : Store) :
    (env.pdf_exists = false → setup_and_run env s = some (1, false)) ∧
    (env.pdf_exists = true → env.total_pages = none →
      setup_and_run env s = some (1, false)) ∧
    (env.pdf_exists = true → env.action = UserAction.quit →
      ∀ t, env.total_pages = some t → setup_and_run env s = some (0, false)) ∧
    (env.tesseract_found = false →
      ∀ c began, setup_and_run env s = some (c, began) → began = false) ∧
    (∀ c began, setup_and_run env s = some (c, began) →
      (c = 0 ∨ c = 1) ∧ (began = true → c = 0 ∧ env.tesseract_found = true)) := by
  refine ⟨?_, ?_, ?_, ?_, ?_⟩
  · intro h
    unfold setup_and_run
    rw [h]
    rfl
  · intro h1 h2
    unfold setup_and_run
    rw [h1, h2]
    rfl
  · intro h1 h3 t h2
    unfold setup_and_run
    rw [h1, h2, h3]
    rfl
  · intro htf c began hsr
    rcases setup_cases env s with h | h | h | h <;> rw [h] at hsr
    · obtain ⟨h1, h2⟩ := Prod.mk.inj (Option.some.inj hsr)
      exact h2.symm
    · obtain ⟨h1, h2⟩ := Prod.mk.inj (Option.some.inj hsr)
      exact h2.symm
    · obtain ⟨h1, h2⟩ := Prod.mk.inj (Option.some.inj hsr)
      rw [← h2, htf]
    · exact absurd hsr (by simp)
  · intro c began hsr
    rcases setup_cases env s with h | h | h | h <;> rw [h] at hsr
    · obtain ⟨h1, h2⟩ := Prod.mk.inj (Option.some.inj hsr)
      exact ⟨Or.inr h1.symm, fun hb => absurd (h2.trans hb) Bool.false_ne_true⟩
    · obtain ⟨h1, h2⟩ := Prod.mk.inj (Option.some.inj hsr)
      exact ⟨Or.inl h1.symm, fun hb => absurd (h2.trans hb) Bool.false_ne_true⟩
    · obtain ⟨h1, h2⟩ := Prod.mk.inj (Option.some.inj hsr)
      exact ⟨Or.inl h1.symm, fun hb => ⟨h1.symm, h2.trans hb⟩⟩
    · exact absurd hsr (by simp)

theorem setup_exit_codes_witness :
    setup_and_run ⟨false, none, true, UserAction.quit⟩ emptyStore = some (1, false) :=
  (setup_exit_codes ⟨false, none, true, UserAction.quit⟩ emptyStore).1 rfl

/-- C5: Completeness: after a run over the 1-based range `[a, b]`,
every index in the range has a text artifact, and that artifact either
begins with the failure sentinel or it does not — exactly one of
"sentinel text artifact" and "real text artifact" holds, never neither;
and the render artifact can be missing only if the render phase itself
failed for that page in this run and no render artifact existed before. -/
theorem run_completeness (oracle : Nat → PageOutcome) (s : Store) (a b i : Nat)
    (h1 : 1 ≤ a) (hia : a ≤ i) (hib : i ≤ b) :
    (∃ c, ((run_pages oracle s (pagesToProcess a b)).1).txtAt i = some c ∧
       ((beginsWith SENTINEL c = true ∧ ¬beginsWith SENTINEL c = false) ∨
        (beginsWith SENTINEL c = false ∧ ¬beginsWith SENTINEL c = true))) ∧
    (((run_pages oracle s (pagesToProcess a b)).1).pngAt i = none →
       (∃ e, oracle (i - 1) = .renderFail e) ∧ s.pngAt i = none) := by
  have hmem : i - 1 ∈ pagesToProcess a b := by
    unfold pagesToProcess
    rw [List.mem_range'_1]
    omega
  have hi1 : i - 1 + 1 = i := by omega
  constructor
  · have hsome := run_txt_some oracle (pagesToProcess a b) s (i - 1) hmem
    rw [hi1] at hsome
    obtain ⟨c, hc⟩ := Option.isSome_iff_exists.mp hsome
    refine ⟨c, hc, ?_⟩
    cases hb : beginsWith SENTINEL c with
    | true => exact Or.inl ⟨rfl, by simp⟩
    | false => exact Or.inr ⟨rfl, by simp⟩
  · intro hnone
    have := run_png_none oracle (pagesToProcess a b) s (i - 1) hmem (by rw [hi1]; exact hnone)
    rw [hi1] at this
    exact this

theorem run_completeness_witness :
    (∃ c, ((run_pages mixedOracle emptyStore (pagesToProcess 1 2)).1).txtAt 1 = some c ∧
       ((beginsWith SENTINEL c = true ∧ ¬beginsWith SENTINEL c = false) ∨
        (beginsWith SENTINEL c = false ∧ ¬beginsWith SENTINEL c = true))) ∧
    (((run_pages mixedOracle emptyStore (pagesToProcess 1 2)).1).pngAt 1 = none →
       (∃ e, mixedOracle (1 - 1) = .renderFail e) ∧ emptyStore.pngAt 1 = none) :=
  run_completeness mixedOracle emptyStore 1 2 1 (by decide) (by decide) (by decide)

/-- C6: Progress scanner: `get_last_processed_page` returns 0 when
either artifact subdirectory is absent; when both exist it returns an
upper bound of every complete index (render and text artifacts both
present) and is itself 0 or a complete index — i.e. the *maximum*
complete index, not the highest contiguous prefix. -/
theorem glpp_correct (s : Store) :
    ((s.png_dir_exists = false ∨ s.txt_dir_exists = false) →
      get_last_processed_page s = 0) ∧
    (s.png_dir_exists = true → s.txt_dir_exists = true →
      (∀ i, completeB s i = true → i ≤ get_last_processed_page s) ∧
      (get_last_processed_page s = 0 ∨
        completeB s (get_last_processed_page s) = true)) := by
  constructor
  · rintro (h | h) <;> simp [get_last_processed_page, h]
  · intro hp ht
    have hglpp : get_last_processed_page s
        = ((s.pngs.map Prod.fst).filter (fun i => (s.txtAt i).isSome)).foldl max 0 := by
      simp [get_last_processed_page, hp, ht]
    constructor
    · intro i hc
      obtain ⟨hmem, hsome⟩ := Bool.and_eq_true _ _ |>.mp hc
      have hmem' : i ∈ (s.pngs.map Prod.fst).filter (fun i => (s.txtAt i).isSome) :=
        List.mem_filter.mpr ⟨List.elem_iff.mp hmem, hsome⟩
      rw [hglpp]
      exact (foldl_max_le _ 0).2 i hmem'
    · rw [hglpp]
      rcases foldl_max_mem ((s.pngs.map Prod.fst).filter (fun i => (s.txtAt i).isSome)) 0
        with h | h
      · exact Or.inl h
      · obtain ⟨hmem, hsome⟩ := List.mem_filter.mp h
        exact Or.inr (Bool.and_eq_true _ _ |>.mpr ⟨List.elem_iff.mpr hmem, hsome⟩)

/-- The scanner reports the maximum complete index 5 for complete set
{1, 2, 5} with 3 and 4 incomplete — not the contiguous prefix 2. -/
theorem glpp_correct_witness :
    get_last_processed_page gapStore = 5 ∧
    5 ≤ get_last_processed_page gapStore ∧
    completeB gapStore (get_last_processed_page gapStore) = true :=
  ⟨by decide,
   ((glpp_correct gapStore).2 rfl rfl).1 5 (by decide),
   by decide⟩

/-- C7: Combined artifact format and order: whenever a merged
artifact is produced (some page qualifies), it is exactly the
concatenation, over the qualifying pages in strictly ascending index
order, of the delimiter
`"\n\n==================== PAGE <n> ====================\n\n"` (with
`<n>` the page's 1-based decimal index) followed by that page's
content; every merged page lies in the requested range. -/
theorem combine_format_order (s : Store) (a b : Nat)
    (hne : mergedPages s a b ≠ []) :
    ((combine_text_files s a b).1).combined
      = some ((mergedPages s a b).map (fun i => pageHeader i ++ (s.txtAt i).getD [])).flatten ∧
    List.Pairwise (· < ·) (mergedPages s a b) ∧
    ∀ i ∈ mergedPages s a b, a ≤ i ∧ i ≤ b ∧
      pageHeader i = "\n\n==================== PAGE ".toList ++ (Nat.repr i).toList
        ++ " ====================\n\n".toList := by
  refine ⟨?_, ?_, ?_⟩
  · cases hM : mergedPages s a b with
    | nil => exact absurd hM hne
    | cons x xs =>
        simp only [combine_text_files, hM, List.isEmpty_cons, Bool.false_eq_true, if_false]
  · exact List.Pairwise.sublist (List.filter_sublist _) (List.pairwise_lt_range' a (b + 1 - a))
  · intro i hi
    have hr := List.mem_range'_1.mp (List.mem_filter.mp hi).1
    exact ⟨by omega, by omega, rfl⟩

theorem combine_format_order_witness :
    ((combine_text_files sampleComplete 1 2).1).combined
      = some ((mergedPages sampleComplete 1 2).map
          (fun i => pageHeader i ++ (sampleComplete.txtAt i).getD [])).flatten ∧
    List.Pairwise (· < ·) (mergedPages sampleComplete 1 2) ∧
    ∀ i ∈ mergedPages sampleComplete 1 2, 1 ≤ i ∧ i ≤ 2 ∧
      pageHeader i = "\n\n==================== PAGE ".toList ++ (Nat.repr i).toList
        ++ " ====================\n\n".toList :=
  combine_format_order sampleComplete 1 2 (by decide)

/-- C8: Run accounting: a `process_pdf` run over `[a, b]` (engine
present, and no worker can raise past the executor since every task
returns) collects exactly one result per page index — so a failure on one
page never prevents another page from being attempted — and its tally
satisfies `success_count + failure_count = b - a + 1`; when every page in
the range is already complete, the skipped pages are all counted as
successes. -/
theorem run_accounting (oracle : Nat → PageOutcome) (s : Store) (a b : Nat)
    (h1 : 1 ≤ a) (h2 : a ≤ b) :
    ∃ agg results calls,
      (process_pdf oracle true s a b).2 = some (agg, results, calls) ∧
      results.map TaskResult.page_index = List.range' a (b - a + 1) ∧
      agg.success_count + agg.failure_count = b - a + 1 ∧
      ((∀ n ∈ pagesToProcess a b,
          ((s.pngAt (n + 1)).isSome && (s.txtAt (n + 1)).isSome) = true) →
        agg.success_count = b - a + 1) := by
  have hcount : b + 1 - a = b - a + 1 := by omega
  have hlen : (pagesToProcess a b).length = b - a + 1 := by
    unfold pagesToProcess
    rw [List.length_range']
    omega
  refine ⟨_, _, _, rfl, ?_, ?_, ?_⟩
  · rw [run_results_map]
    unfold pagesToProcess
    rw [map_succ_range']
    have ha : a - 1 + 1 = a := by omega
    rw [ha, hcount]
  · unfold aggregate
    rw [foldl_aggStep_counts _ _ (run_success_msg oracle (pagesToProcess a b) _)]
    have hlen2 : ((run_pages oracle
        { s with png_dir_exists := true, txt_dir_exists := true }
        (pagesToProcess a b)).2.1).length = b - a + 1 := by
      have := congrArg List.length (run_results_map oracle (pagesToProcess a b)
        { s with png_dir_exists := true, txt_dir_exists := true })
      rw [List.length_map, List.length_map] at this
      rw [this, hlen]
    rw [hlen2]
    simp
  · intro hall
    have hall' : ∀ n ∈ pagesToProcess a b,
        (((({ s with png_dir_exists := true, txt_dir_exists := true } : Store).pngAt
            (n + 1)).isSome &&
          (({ s with png_dir_exists := true, txt_dir_exists := true } : Store).txtAt
            (n + 1)).isSome)) = true := hall
    rw [run_skip_all oracle (pagesToProcess a b) _ hall']
    show (aggregate _).success_count = b - a + 1
    unfold aggregate
    rw [foldl_aggStep_all_success, hlen]
    simp

theorem run_accounting_witness :
    ∃ agg results calls,
      (process_pdf mixedOracle true emptyStore 1 2).2 = some (agg, results, calls) ∧
      results.map TaskResult.page_index = List.range' 1 (2 - 1 + 1) ∧
      agg.success_count + agg.failure_count = 2 - 1 + 1 ∧
      ((∀ n ∈ pagesToProcess 1 2,
          ((emptyStore.pngAt (n + 1)).isSome && (emptyStore.txtAt (n + 1)).isSome) = true) →
        agg.success_count = 2 - 1 + 1) :=
  run_accounting mixedOracle emptyStore 1 2 (by decide) (by decide)

/-- C9: Zero-qualify merge: if every text artifact in the range is
missing or sentinel-marked, `combine_text_files` merges nothing (reports
0, the "nothing was merged" message of line 149) and returns the store
exactly as it was — every per-page file and any pre-existing combined
artifact untouched. -/
theorem combine_zero_qualify (s : Store) (a b : Nat)
    (h : ∀ i, a ≤ i → i ≤ b →
      s.txtAt i = none ∨ ∃ c, s.txtAt i = some c ∧ beginsWith SENTINEL c = true) :
    combine_text_files s a b = (s, 0) := by
  have hM : mergedPages s a b = [] := by
    rw [mergedPages, List.filter_eq_nil_iff]
    intro i hi
    have hb := List.mem_range'_1.mp hi
    rcases h i hb.1 (by omega) with hnone | ⟨c, hsome, hsen⟩
    · simp [qualifies, hnone]
    · simp [sentinel_not_qualifies hsome hsen]
  simp [combine_text_files, hM]

theorem combine_zero_qualify_witness :
    combine_text_files sentinelStore 1 1 = (sentinelStore, 0) :=
  combine_zero_qualify sentinelStore 1 1 (by decide)

/-- C10: Render-failure retry: a page whose render phase fails (before
the render artifact is persisted) still gets its sentinel text artifact,
leaving text-present/render-absent, and — because the skip check requires
both artifacts — a later invocation re-attempts it (nonzero engine
phases); by contrast a page whose OCR fails leaves both artifacts present
and a later invocation skips it as done. -/
theorem render_failure_reattempted (oracle oracle2 oracle3 : Nat → PageOutcome)
    (s : Store) (n m : Nat) (e e2 : PyErr) (img : Chars)
    (hpng : s.pngAt (n + 1) = none)
    (hr : oracle n = .renderFail e)
    (hm : ((s.pngAt (m + 1)).isSome && (s.txtAt (m + 1)).isSome) = false)
    (ho : oracle m = .ocrFail img e2) :
    ((process_page_task oracle s n).1).txtAt (n + 1) = some (SENTINEL ++ errorMessage e) ∧
    ((process_page_task oracle s n).1).pngAt (n + 1) = none ∧
    (process_page_task oracle2 (process_page_task oracle s n).1 n).2.2 ≠ 0 ∧
    ((process_page_task oracle s m).1).pngAt (m + 1) = some img ∧
    ((process_page_task oracle s m).1).txtAt (m + 1) = some (SENTINEL ++ errorMessage e2) ∧
    process_page_task oracle3 (process_page_task oracle s m).1 m
      = ((process_page_task oracle s m).1, ⟨true, m + 1, none⟩, 0) := by
  have hcn : ((s.pngAt (n + 1)).isSome && (s.txtAt (n + 1)).isSome) = false := by
    rw [hpng]
    rfl
  have hstep_n : (process_page_task oracle s n).1
      = s.writeTxt (n + 1) (SENTINEL ++ errorMessage e) := by
    rw [task_not_skip hcn, hr]
  have hstep_m : (process_page_task oracle s m).1
      = (s.writePng (m + 1) img).writeTxt (m + 1) (SENTINEL ++ errorMessage e2) := by
    rw [task_not_skip hm, ho]
  have htxt_n : ((process_page_task oracle s n).1).txtAt (n + 1)
      = some (SENTINEL ++ errorMessage e) := by
    rw [hstep_n, txtAt_writeTxt]
    simp
  have hpng_n : ((process_page_task oracle s n).1).pngAt (n + 1) = none := by
    rw [hstep_n, pngAt_writeTxt]
    exact hpng
  have hpng_m : ((process_page_task oracle s m).1).pngAt (m + 1) = some img := by
    rw [hstep_m, pngAt_writeTxt, pngAt_writePng]
    simp
  have htxt_m : ((process_page_task oracle s m).1).txtAt (m + 1)
      = some (SENTINEL ++ errorMessage e2) := by
    rw [hstep_m, txtAt_writeTxt]
    simp
  refine ⟨htxt_n, hpng_n, ?_, hpng_m, htxt_m, ?_⟩
  · apply task_calls_pos
    rw [hpng_n]
    rfl
  · apply task_skip
    rw [hpng_m, htxt_m]
    rfl

theorem render_failure_reattempted_witness :
    ((process_page_task mixedOracle emptyStore 0).1).txtAt 1
      = some (SENTINEL ++ errorMessage sampleErr) ∧
    ((process_page_task mixedOracle emptyStore 0).1).pngAt 1 = none ∧
    (process_page_task okOracle (process_page_task mixedOracle emptyStore 0).1 0).2.2 ≠ 0 ∧
    ((process_page_task mixedOracle emptyStore 1).1).pngAt 2 = some "IMG".toList ∧
    ((process_page_task mixedOracle emptyStore 1).1).txtAt 2
      = some (SENTINEL ++ errorMessage sampleErr) ∧
    process_page_task okOracle (process_page_task mixedOracle emptyStore 1).1 1
      = ((process_page_task mixedOracle emptyStore 1).1, ⟨true, 2, none⟩, 0) :=
  render_failure_reattempted mixedOracle okOracle okOracle emptyStore 0 1 sampleErr sampleErr
    "IMG".toList (by decide) (by decide) (by decide) (by decide)

end PdfExtractor
